import Mathlib

/-!
Verification of the table-extraction, scheduling and authentication core of
a web-scraping tool.  The Python source is shallowly embedded:

* `parse_table_to_dataframe` embeds `KpiScraper._parse_table_to_dataframe`
  (src/scraper.py).  An HTML table is modelled as the list of its `tr` rows,
  each row the list of the raw text contents of its `th`/`td` cells;
  `get_text(strip=True)` is modelled by `strTrim`.  A pandas cell is
  `Option String` (`none` = NaN); `dropna(how='all')` keeps exactly the rows
  having at least one non-NaN cell.
* `scrape_table_data` embeds `KpiScraper.scrape_table_data`: the outcome of
  the rendered-page fetch is a `FetchOutcome` (either the bounded wait timed
  out, or a page whose `<table>` elements are given in document order).  The
  `except Exception` handler, which swallows the timeout, is the `timeout`
  branch returning the empty dataframe.  Table selection is Python's
  `max(tables, key=lambda t: len(t.find_all('tr')))`, a left fold that keeps
  the earlier element on ties.
* `schedLoop` / `run_scheduled_scraping` embed the `while` loop of
  `run_scheduled_scraping` (src/main.py), with time in minutes, a trace
  `success` giving each run's result, `dur` each run's duration, and fuel
  for termination.  The GUI cancellation poll is not exercised by any claim
  and is not modelled.
* `login`, `load_cookies`, `manual_login` embed `Authenticator` (src/auth.py)
  over an abstract world `AuthWorld` recording the facts the code branches
  on; Python's `"login" in url.lower()` is `strContains (strLower url) "login"`.
-/

/-- Python's `str.strip()` / BeautifulSoup's `get_text(strip=True)`:
drop whitespace from both ends.  Implemented over the character list so
that it evaluates by kernel reduction. -/
def strTrim (s : String) : String :=
  ⟨((s.data.dropWhile Char.isWhitespace).reverse.dropWhile Char.isWhitespace).reverse⟩

/-- A pandas cell: `none` models NaN, `some s` a string value. -/
abbrev Cell := Option String

/-- A `tr` element: the raw text of its `th`/`td` cells, in document order. -/
abbrev TableRow := List String

/-- A `table` element: its `tr` rows in document order. -/
abbrev HtmlTable := List TableRow

/-- The result of `pd.DataFrame(data_rows, columns=headers)`:
column headers plus rows of cells. -/
structure DataFrame where
  headers : List String
  rows : List (List Cell)
deriving Repr, DecidableEq

/-- `pd.DataFrame()`: the empty dataframe. -/
def emptyDataFrame : DataFrame := ⟨[], []⟩

/-- `df.empty` in pandas: true when the frame has no rows or no columns. -/
def DataFrame.empty (df : DataFrame) : Bool :=
  df.rows.isEmpty || df.headers.isEmpty

/-- One header cell: `header_text if header_text else f"列{i+1}"`
(`i` the 0-based position; the source uses `len(headers)+1`, which equals
`i+1` because exactly one header is appended per cell). -/
def headerName (i : Nat) (c : String) : String :=
  let t := strTrim c
  if t = "" then "列" ++ toString (i + 1) else t

/-- The header list built from the first `tr` of the table. -/
def makeHeaders (headerRow : TableRow) : List String :=
  headerRow.enum.map (fun p => headerName p.1 p.2)

/-- One data row: trim every cell, pad with `''` up to the header width
(`while len(row_data) < len(headers): row_data.append('')`), then
`if row_data: data_rows.append(row_data[:len(headers)])`. -/
def normalizeRow (hn : Nat) (cells : TableRow) : Option (List Cell) :=
  let row_data : List Cell :=
    cells.map (fun c => some (strTrim c)) ++ List.replicate (hn - cells.length) (some "")
  if row_data.isEmpty then none else some (row_data.take hn)

/-- `df.dropna(how='all')`: keep the rows having at least one non-NaN cell. -/
def dropnaHowAll (df : DataFrame) : DataFrame :=
  ⟨df.headers, df.rows.filter (fun r => r.any (fun c => c.isSome))⟩

/-- Embedding of `KpiScraper._parse_table_to_dataframe` (src/scraper.py):
first `tr` gives the headers (blank cells get positional placeholders),
the remaining `tr`s give the data rows padded/truncated to header width,
then `dropna(how='all')`. -/
def parse_table_to_dataframe (t : HtmlTable) : DataFrame :=
  match t with
  | [] => emptyDataFrame
  | headerRow :: rest =>
    let headers := makeHeaders headerRow
    let data_rows := rest.filterMap (fun row => normalizeRow headers.length row)
    dropnaHowAll ⟨headers, data_rows⟩

/-- Outcome of rendering the target page: either the bounded wait for a
`table` element timed out (`WebDriverWait ... until` raised), or the page
rendered with the given `<table>` elements in document order. -/
inductive FetchOutcome where
  | timeout : FetchOutcome
  | page : List HtmlTable → FetchOutcome

/-- `len(t.find_all('tr'))`: the row count used as the selection key. -/
def numRows (t : HtmlTable) : Nat := t.length

/-- One step of Python's `max` with key `numRows`: the new element replaces
the current best only on a strictly greater key, so the earliest maximal
element wins. -/
def pyMaxStep (a b : HtmlTable) : HtmlTable :=
  if numRows a < numRows b then b else a

/-- `max(tables, key=lambda t: len(t.find_all('tr')))` on the nonempty list
`t :: ts`. -/
def pymaxTable (t : HtmlTable) (ts : List HtmlTable) : HtmlTable :=
  ts.foldl pyMaxStep t

/-- Embedding of `KpiScraper.scrape_table_data` (src/scraper.py): on timeout
the `except Exception` handler returns `pd.DataFrame()`; with no tables it
returns `pd.DataFrame()`; otherwise it parses the table with the most rows. -/
def scrape_table_data : FetchOutcome → DataFrame
  | FetchOutcome.timeout => emptyDataFrame
  | FetchOutcome.page [] => emptyDataFrame
  | FetchOutcome.page (t :: ts) => parse_table_to_dataframe (pymaxTable t ts)

/-- What `run_scraping_process` (src/main.py) observes of one scrape: it
raises (and returns `False`) exactly when `df.empty`. -/
def run_scraping_success (fo : FetchOutcome) : Bool :=
  !(scrape_table_data fo).empty

/-- Result of one pass of the scheduler loop of `run_scheduled_scraping`
(src/main.py): how many runs were started, at which times the inter-run
waits ended (the scheduled start of the following run), and whether the
loop was left through the failure `break`. -/
structure SchedResult where
  runCount : Nat
  wakeTimes : List Nat
  aborted : Bool
deriving Repr, DecidableEq

/-- Embedding of the `while datetime.now() < end_time` loop of
`run_scheduled_scraping` (src/main.py).  Time is in minutes from the
scheduler's start, `endTime = start_time + max_runtime`, `success n` is the
result run `n` would report, `dur n` its duration.  Each iteration:
if the deadline has passed, exit; otherwise start run `count+1`; on failure
`break` (aborted); otherwise compute `next_run_time = now + interval` and,
if it exceeds the deadline, exit without sleeping, else sleep until
`next_run_time` and loop.  The first argument is fuel (the Python loop can
run forever when `interval = 0`); exhausted fuel reports the state reached
so far. -/
def schedLoop (interval endTime : Nat) (success : Nat → Bool) (dur : Nat → Nat) :
    Nat → Nat → Nat → List Nat → SchedResult
  | 0, _t, count, wakes => ⟨count, wakes, false⟩
  | (fuel+1), t, count, wakes =>
    if t < endTime then
      let n := count + 1
      if success n then
        let next := t + dur n + interval
        if endTime < next then ⟨n, wakes, false⟩
        else schedLoop interval endTime success dur fuel next n (wakes ++ [next])
      else ⟨n, wakes, true⟩
    else ⟨count, wakes, false⟩

/-- `run_scheduled_scraping` (src/main.py) started at time 0, so the
deadline is `maxRuntime` itself. -/
def run_scheduled_scraping (interval maxRuntime : Nat) (success : Nat → Bool)
    (dur : Nat → Nat) (fuel : Nat) : SchedResult :=
  schedLoop interval maxRuntime success dur fuel 0 0 []

/-- Python's `str.lower()`, over the character list so it kernel-reduces. -/
def strLower (s : String) : String := ⟨s.data.map Char.toLower⟩

/-- `pat` occurs as a contiguous substring of `s` (Python's `pat in s`). -/
def subOccurs (pat : List Char) : List Char → Bool
  | [] => pat.isEmpty
  | c :: cs => pat.isPrefixOf (c :: cs) || subOccurs pat cs

/-- Python's `pat in s` on strings. -/
def strContains (s pat : String) : Bool := subOccurs pat.data s.data

/-- The facts `Authenticator` (src/auth.py) branches on, as an abstract
world: whether the WebDriver starts, whether `cookies.pkl` exists, the
cookie records it holds, which of them `driver.add_cookie` accepts, the
configured login URL, the URL the driver lands on after navigating to the
target with the loaded cookies applied, and the URL it is on after the user
confirms the manual login. -/
structure AuthWorld where
  setup_ok : Bool
  cookies_file_exists : Bool
  cookies : List Nat
  add_cookie_ok : Nat → Bool
  login_url : String
  target_landing_url : String
  manual_landing_url : String

/-- Embedding of `Authenticator.load_cookies` (src/auth.py): when the cookie
file exists, navigate to the login URL and apply each record, skipping (with
a logged warning) the ones `add_cookie` rejects, and report `True`; when the
file is absent report `False`.  Returns (return value, cookies actually
applied to the driver). -/
def load_cookies (w : AuthWorld) : Bool × List Nat :=
  if w.cookies_file_exists then (true, w.cookies.filter w.add_cookie_ok)
  else (false, [])

/-- Embedding of `Authenticator.manual_login` (src/auth.py), reduced to its
decision: after the user presses Enter, it succeeds (and saves cookies) iff
the current URL differs from the login URL. -/
def manual_login (w : AuthWorld) : Bool :=
  w.manual_landing_url != w.login_url

/-- What a `login()` call did: its return value, whether the interactive
(manual) path was invoked, whether `save_cookies` was called, and which
cookie records were applied to the driver. -/
structure LoginResult where
  success : Bool
  usedManual : Bool
  savedCookies : Bool
  appliedCookies : List Nat
deriving Repr, DecidableEq

/-- Embedding of `Authenticator.login` (src/auth.py): start the WebDriver;
try `load_cookies`; on success navigate to the target and return `True`
(without saving) when the landing URL does not contain `"login"`
case-insensitively; otherwise, and when no cookie file exists, fall through
to `manual_login`, which calls `save_cookies` exactly on its success. -/
def login (w : AuthWorld) : LoginResult :=
  if w.setup_ok then
    let lc := load_cookies w
    if lc.1 then
      if strContains (strLower w.target_landing_url) "login" then
        let ok := manual_login w
        ⟨ok, true, ok, lc.2⟩
      else
        ⟨true, false, false, lc.2⟩
    else
      let ok := manual_login w
      ⟨ok, true, ok, lc.2⟩
  else ⟨false, false, false, []⟩

/-- Concrete world: driver starts, a cookie file with records `[1,2,3]`
exists, record `2` is rejected by `add_cookie`, and the probe of the target
lands on a dashboard URL (no `login`). -/
def reuseWorld : AuthWorld :=
  ⟨true, true, [1, 2, 3], (fun k => k != 2), "https://site/login",
    "https://site/dashboard", "https://site/home"⟩

/-- Concrete world: no cookie file, so `login` goes interactive; the user
ends on a URL different from the login URL, so the manual login succeeds. -/
def manualWorld : AuthWorld :=
  ⟨true, false, [], (fun _ => true), "https://site/login",
    "https://site/dashboard", "https://site/home"⟩

/-- Every row `normalizeRow` emits has exactly the header width: the source
pads with `''` up to `len(headers)` and then truncates with
`row_data[:len(headers)]`. -/
theorem normalizeRow_length (hn : Nat) (cells : TableRow) (r : List Cell)
    (h : normalizeRow hn cells = some r) : r.length = hn := by
  simp only [normalizeRow] at h
  split at h
  · exact absurd h (by simp)
  · rw [Option.some.injEq] at h
    subst h
    simp only [List.length_take, List.length_append, List.length_map,
      List.length_replicate]
    omega

/-- C1: every row of a dataset returned by `_parse_table_to_dataframe` has
length exactly the number of headers — short rows are padded with empty
strings, long rows are truncated, so no returned dataset contains a partial
row. -/
theorem extractor_row_width_invariant (t : HtmlTable) (r : List Cell)
    (h : r ∈ (parse_table_to_dataframe t).rows) :
    r.length = (parse_table_to_dataframe t).headers.length := by
  cases t with
  | nil => simp [parse_table_to_dataframe, emptyDataFrame] at h
  | cons headerRow rest =>
    simp only [parse_table_to_dataframe, dropnaHowAll] at h ⊢
    have h2 := List.mem_of_mem_filter h
    rw [List.mem_filterMap] at h2
    obtain ⟨row, _, hrow⟩ := h2
    exact normalizeRow_length _ _ _ hrow

/-- Witness for C1 at a concrete table: header row `["H"]`, data row
`["a", "b"]` (truncated to width 1). -/
theorem extractor_row_width_invariant_witness :
    ([some "a"] : List Cell).length =
      (parse_table_to_dataframe [["H"], ["a", "b"]]).headers.length :=
  extractor_row_width_invariant [["H"], ["a", "b"]] [some "a"] (by decide)

/-- C2: `scrape_table_data` never fails — the embedding is a total function
(the source catches every exception and returns `pd.DataFrame()`), and on a
page with zero `table` elements it returns a dataset with zero headers and
zero rows. -/
theorem extract_empty_on_no_table :
    scrape_table_data (FetchOutcome.page []) = emptyDataFrame ∧
    (scrape_table_data (FetchOutcome.page [])).headers.length = 0 ∧
    (scrape_table_data (FetchOutcome.page [])).rows.length = 0 :=
  ⟨rfl, rfl, rfl⟩

/-- C3, evaluated at the failing input: for the table with header row
`["H"]` and one data row whose single cell is all whitespace, the returned
dataset still contains the all-empty row `[""]`.  The padded row is never
the empty list, so the source's `if row_data:` guard cannot drop it, and
`dropna(how='all')` only removes NaN rows, not empty-string rows — contrary
to the claim and to the source's own comments. -/
theorem empty_row_kept_at_failing_input :
    (parse_table_to_dataframe [["H"], [" "]]).rows = [[some ""]] := by decide

/-- Python's `max` over `a :: ts` with key `numRows`, as the left fold
`pyMaxStep`: either no element of `ts` strictly beats the seed `a` and the
fold returns `a`, or the fold returns the first element of `ts` realising
the strict maximum over `a` and all of `ts`. -/
theorem pymax_foldl_spec (ts : List HtmlTable) (a : HtmlTable) :
    (ts.foldl pyMaxStep a = a ∧ ∀ u ∈ ts, numRows u ≤ numRows a) ∨
    (∃ i, ∃ hi : i < ts.length, ts.foldl pyMaxStep a = ts.get ⟨i, hi⟩ ∧
      numRows a < numRows (ts.get ⟨i, hi⟩) ∧
      (∀ j, ∀ hj : j < ts.length,
        numRows (ts.get ⟨j, hj⟩) ≤ numRows (ts.get ⟨i, hi⟩)) ∧
      (∀ j, ∀ hj : j < ts.length, j < i →
        numRows (ts.get ⟨j, hj⟩) < numRows (ts.get ⟨i, hi⟩))) := by
  induction ts generalizing a with
  | nil => exact Or.inl ⟨rfl, by simp⟩
  | cons u us ih =>
    rw [List.foldl_cons]
    by_cases hu : numRows a < numRows u
    · have hstep : pyMaxStep a u = u := by simp [pyMaxStep, hu]
      rw [hstep]
      rcases ih u with ⟨heq, hb⟩ | ⟨i, hi, heq, hlt, hub, hstrict⟩
      · refine Or.inr ⟨0, by simp, heq, hu, ?_, ?_⟩
        · intro j hj
          cases j with
          | zero => exact Nat.le_refl _
          | succ k =>
            exact hb _ (List.get_mem us k (Nat.lt_of_succ_lt_succ hj))
        · intro j hj hj0
          exact absurd hj0 (Nat.not_lt_zero j)
      · refine Or.inr ⟨i + 1, Nat.succ_lt_succ hi, heq, Nat.lt_trans hu hlt, ?_, ?_⟩
        · intro j hj
          cases j with
          | zero => exact Nat.le_of_lt hlt
          | succ k => exact hub k (Nat.lt_of_succ_lt_succ hj)
        · intro j hj hji
          cases j with
          | zero => exact hlt
          | succ k => exact hstrict k (Nat.lt_of_succ_lt_succ hj) (Nat.lt_of_succ_lt_succ hji)
    · have hstep : pyMaxStep a u = a := by simp [pyMaxStep, hu]
      rw [hstep]
      rcases ih a with ⟨heq, hb⟩ | ⟨i, hi, heq, hlt, hub, hstrict⟩
      · refine Or.inl ⟨heq, ?_⟩
        intro v hv
        rcases List.mem_cons.mp hv with rfl | hv2
        · exact Nat.le_of_not_lt hu
        · exact hb v hv2
      · refine Or.inr ⟨i + 1, Nat.succ_lt_succ hi, heq, hlt, ?_, ?_⟩
        · intro j hj
          cases j with
          | zero => exact Nat.le_trans (Nat.le_of_not_lt hu) (Nat.le_of_lt hlt)
          | succ k => exact hub k (Nat.lt_of_succ_lt_succ hj)
        · intro j hj hji
          cases j with
          | zero => exact Nat.lt_of_le_of_lt (Nat.le_of_not_lt hu) hlt
          | succ k => exact hstrict k (Nat.lt_of_succ_lt_succ hj) (Nat.lt_of_succ_lt_succ hji)

/-- C4: on a page with at least one table, `scrape_table_data` parses the
table with the greatest number of `tr` elements, and on ties the earliest
table in document order: the selected index has a row count at least that
of every table, and strictly greater than that of every earlier table. -/
theorem table_selection_first_max (t : HtmlTable) (ts : List HtmlTable) :
    ∃ i, ∃ hi : i < (t :: ts).length,
      scrape_table_data (FetchOutcome.page (t :: ts)) =
        parse_table_to_dataframe ((t :: ts).get ⟨i, hi⟩) ∧
      (∀ j, ∀ hj : j < (t :: ts).length,
        numRows ((t :: ts).get ⟨j, hj⟩) ≤ numRows ((t :: ts).get ⟨i, hi⟩)) ∧
      (∀ j, ∀ hj : j < (t :: ts).length, j < i →
        numRows ((t :: ts).get ⟨j, hj⟩) < numRows ((t :: ts).get ⟨i, hi⟩)) := by
  have hs : scrape_table_data (FetchOutcome.page (t :: ts)) =
      parse_table_to_dataframe (ts.foldl pyMaxStep t) := rfl
  rcases pymax_foldl_spec ts t with ⟨heq, hb⟩ | ⟨i, hi, heq, hlt, hub, hstrict⟩
  · refine ⟨0, Nat.succ_pos _, ?_, ?_, ?_⟩
    · rw [hs, heq]
      rfl
    · intro j hj
      cases j with
      | zero => exact Nat.le_refl _
      | succ k => exact hb _ (List.get_mem ts k (Nat.lt_of_succ_lt_succ hj))
    · intro j hj hj0
      exact absurd hj0 (Nat.not_lt_zero j)
  · refine ⟨i + 1, Nat.succ_lt_succ hi, ?_, ?_, ?_⟩
    · rw [hs, heq]
      rfl
    · intro j hj
      cases j with
      | zero => exact Nat.le_of_lt hlt
      | succ k => exact hub k (Nat.lt_of_succ_lt_succ hj)
    · intro j hj hji
      cases j with
      | zero => exact hlt
      | succ k => exact hstrict k (Nat.lt_of_succ_lt_succ hj) (Nat.lt_of_succ_lt_succ hji)

/-- Witness for C4 on a page with row counts `[3, 7, 5]`: the selection
facts hold at this concrete input. -/
theorem table_selection_first_max_witness :
    ∃ i, ∃ hi : i <
      ([List.replicate 3 [], List.replicate 7 [], List.replicate 5 []] :
        List HtmlTable).length,
      scrape_table_data (FetchOutcome.page
          [List.replicate 3 [], List.replicate 7 [], List.replicate 5 []]) =
        parse_table_to_dataframe
          (([List.replicate 3 [], List.replicate 7 [], List.replicate 5 []] :
            List HtmlTable).get ⟨i, hi⟩) ∧
      (∀ j, ∀ hj : j <
        ([List.replicate 3 [], List.replicate 7 [], List.replicate 5 []] :
          List HtmlTable).length,
        numRows (([List.replicate 3 [], List.replicate 7 [], List.replicate 5 []] :
            List HtmlTable).get ⟨j, hj⟩) ≤
          numRows (([List.replicate 3 [], List.replicate 7 [], List.replicate 5 []] :
            List HtmlTable).get ⟨i, hi⟩)) ∧
      (∀ j, ∀ hj : j <
        ([List.replicate 3 [], List.replicate 7 [], List.replicate 5 []] :
          List HtmlTable).length, j < i →
        numRows (([List.replicate 3 [], List.replicate 7 [], List.replicate 5 []] :
            List HtmlTable).get ⟨j, hj⟩) <
          numRows (([List.replicate 3 [], List.replicate 7 [], List.replicate 5 []] :
            List HtmlTable).get ⟨i, hi⟩)) :=
  table_selection_first_max (List.replicate 3 [])
    [List.replicate 7 [], List.replicate 5 []]

/-- C5 counterexample: the render-timeout outcome and the zero-table
outcome produce literally the same value — the `except Exception` handler
of `scrape_table_data` swallows the timeout and returns `pd.DataFrame()`,
so the caller of `run_scraping_process` cannot distinguish a timeout from
empty data; there is no tagged `FetchError("render-timeout")` result. -/
theorem timeout_indistinguishable_from_empty :
    scrape_table_data FetchOutcome.timeout = scrape_table_data (FetchOutcome.page []) ∧
    run_scraping_success FetchOutcome.timeout =
      run_scraping_success (FetchOutcome.page []) :=
  ⟨rfl, rfl⟩

/-- C5 amended: on timeout `scrape_table_data` returns the empty dataframe
(the exception is caught), and the caller collapses every zero-row dataset
— timeout or not — into the single failure outcome of the `df.empty`
check; the two failure modes are observed identically, not distinctly. -/
theorem timeout_and_empty_collapse :
    scrape_table_data FetchOutcome.timeout = emptyDataFrame ∧
    run_scraping_success FetchOutcome.timeout = false ∧
    ∀ fo, (scrape_table_data fo).rows = [] → run_scraping_success fo = false := by
  refine ⟨rfl, rfl, ?_⟩
  intro fo h
  simp [run_scraping_success, DataFrame.empty, h]

/-- Witness for C5 amended, at the concrete outcome of a page whose only
table yields no data rows. -/
theorem timeout_and_empty_collapse_witness :
    run_scraping_success (FetchOutcome.page [[["H"]]]) = false :=
  timeout_and_empty_collapse.2.2 (FetchOutcome.page [[["H"]]]) (by decide)

/-- Every wake time the scheduler loop ever records lies at or before the
deadline: the loop sleeps only after checking `next_run_time > end_time`
and breaking when it holds. -/
theorem schedLoop_wakes_le (interval endTime : Nat) (success : Nat → Bool)
    (dur : Nat → Nat) :
    ∀ (fuel t count : Nat) (wakes : List Nat),
      (∀ w ∈ wakes, w ≤ endTime) →
      ∀ w ∈ (schedLoop interval endTime success dur fuel t count wakes).wakeTimes,
        w ≤ endTime := by
  intro fuel
  induction fuel with
  | zero =>
    intro t count wakes hw
    simpa [schedLoop] using hw
  | succ fuel ih =>
    intro t count wakes hw
    by_cases h1 : t < endTime
    · by_cases h2 : success (count + 1) = true
      · by_cases h3 : endTime < t + dur (count + 1) + interval
        · simpa [schedLoop, h1, h2, h3] using hw
        · simp only [schedLoop, h1, h2, h3, if_true, if_false, if_pos, if_neg,
            not_false_eq_true]
          apply ih
          intro w hmem
          rcases List.mem_append.mp hmem with hm1 | hm2
          · exact hw w hm1
          · rw [List.mem_singleton.mp hm2]
            exact Nat.le_of_not_lt h3
      · simpa [schedLoop, h1, h2] using hw
    · simpa [schedLoop, h1] using hw

/-- C6 counterexample: with `interval = 10` minutes, `maxRuntime = 25`
minutes, every run succeeding and taking negligible time, the scheduler
executes 3 runs (at minutes 0, 10 and 20, all before the deadline), not 2:
the claim's concrete count is wrong. -/
theorem scheduler_runcount_not_two :
    (run_scheduled_scraping 10 25 (fun _ => true) (fun _ => 0) 100).runCount ≠ 2 := by
  decide

/-- C6 amended: the scheduler never schedules a wait that crosses the
deadline — every recorded wake time (the scheduled start of the next run)
is at most `deadline = startTime + maxRuntime`, because the loop checks
`next_run_time > end_time` and stops without sleeping when it holds; and
in the concrete scenario `interval = 10`, `maxRuntime = 25`, all runs
succeeding with negligible duration, exactly 3 runs execute. -/
theorem scheduler_wait_never_crosses_deadline :
    (∀ interval endTime success dur fuel,
      ∀ w ∈ (run_scheduled_scraping interval endTime success dur fuel).wakeTimes,
        w ≤ endTime) ∧
    (run_scheduled_scraping 10 25 (fun _ => true) (fun _ => 0) 100).runCount = 3 := by
  constructor
  · intro interval endTime success dur fuel
    exact schedLoop_wakes_le interval endTime success dur fuel 0 0 [] (by simp)
  · decide

/-- Witness for C6 amended: the first wake time of the concrete scenario,
minute 10, is a member of the recorded wake times and is at most the
25-minute deadline. -/
theorem scheduler_wait_never_crosses_deadline_witness :
    10 ∈ (run_scheduled_scraping 10 25 (fun _ => true) (fun _ => 0) 100).wakeTimes ∧
    10 ≤ 25 :=
  ⟨by decide,
    scheduler_wait_never_crosses_deadline.1 10 25 (fun _ => true) (fun _ => 0) 100 10
      (by decide)⟩

/-- Once the loop counter has passed a failing run number, the final run
count cannot exceed it: the `break` on a failed run fires before any later
run starts. -/
theorem schedLoop_failfast (interval endTime : Nat) (success : Nat → Bool)
    (dur : Nat → Nat) :
    ∀ (fuel t count : Nat) (wakes : List Nat) (n : Nat), count < n →
      success n = false →
      (schedLoop interval endTime success dur fuel t count wakes).runCount ≤ n := by
  intro fuel
  induction fuel with
  | zero =>
    intro t count wakes n hc _
    simpa [schedLoop] using Nat.le_of_lt hc
  | succ fuel ih =>
    intro t count wakes n hc hf
    by_cases h1 : t < endTime
    · by_cases h2 : success (count + 1) = true
      · have hne : n ≠ count + 1 := by
          intro h
          rw [h] at hf
          rw [hf] at h2
          exact absurd h2 (by simp)
        by_cases h3 : endTime < t + dur (count + 1) + interval
        · simp only [schedLoop, h1, h2, h3, if_true, if_pos]
          exact hc
        · simp only [schedLoop, h1, h2, h3, if_true, if_false, if_pos, if_neg,
            not_false_eq_true]
          exact ih _ _ _ n (by omega) hf
      · simp only [schedLoop, h1, h2]
        simp only [if_true, if_false, Bool.false_eq_true, if_neg, not_false_eq_true]
        omega
    · simp only [schedLoop, h1, if_neg, not_false_eq_true]
      omega

/-- C7: the scheduler is fail-fast — if run `n` (numbered from 1) reports a
non-success result, the total number of runs started never exceeds `n`, so
no run `n + 1` occurs, whatever the interval, deadline, durations and fuel. -/
theorem scheduler_failfast (interval maxRuntime : Nat) (success : Nat → Bool)
    (dur : Nat → Nat) (fuel : Nat) (n : Nat) (hn : 1 ≤ n)
    (hf : success n = false) :
    (run_scheduled_scraping interval maxRuntime success dur fuel).runCount ≤ n :=
  schedLoop_failfast interval maxRuntime success dur fuel 0 0 [] n hn hf

/-- Witness for C7: run 1 succeeds, run 2 fails, so at most 2 runs start in
the concrete schedule (and indeed exactly 2 do, with the aborted flag set). -/
theorem scheduler_failfast_witness :
    (run_scheduled_scraping 10 1000 (fun k => k != 2) (fun _ => 0) 50).runCount ≤ 2 ∧
    run_scheduled_scraping 10 1000 (fun k => k != 2) (fun _ => 0) 50 =
      ⟨2, [10], true⟩ :=
  ⟨scheduler_failfast 10 1000 (fun k => k != 2) (fun _ => 0) 50 2 (by decide)
      (by decide),
    by decide⟩

/-- C8: with the driver up and a previously saved cookie file, `login`
returns success without invoking the interactive (manual) path exactly when
the URL reached by the post-apply navigation to the target does not contain
`"login"` case-insensitively; when it does contain `"login"`, `login` falls
through to the interactive path. -/
theorem session_reuse_roundtrip (w : AuthWorld) (hs : w.setup_ok = true)
    (hc : w.cookies_file_exists = true) :
    (((login w).success = true ∧ (login w).usedManual = false) ↔
      strContains (strLower w.target_landing_url) "login" = false) ∧
    (strContains (strLower w.target_landing_url) "login" = true →
      (login w).usedManual = true) := by
  by_cases hl : strContains (strLower w.target_landing_url) "login" = true
  · constructor
    · simp [login, load_cookies, hs, hc, hl]
    · intro _
      simp [login, load_cookies, hs, hc, hl]
  · constructor
    · simp [login, load_cookies, hs, hc, hl]
    · intro h
      exact absurd h hl

/-- Witness for C8 at `reuseWorld`: the landing URL is a dashboard URL with
no `login` in it, and the biconditional holds there. -/
theorem session_reuse_roundtrip_witness :
    (((login reuseWorld).success = true ∧ (login reuseWorld).usedManual = false) ↔
      strContains (strLower reuseWorld.target_landing_url) "login" = false) ∧
    (strContains (strLower reuseWorld.target_landing_url) "login" = true →
      (login reuseWorld).usedManual = true) :=
  session_reuse_roundtrip reuseWorld rfl rfl

/-- C9 counterexample: at `reuseWorld` the cookie-reuse path succeeds
(`login` returns `True`) yet `save_cookies` is never called — the source
only saves inside `manual_login`, so not every successful authentication
overwrites the persisted session state. -/
theorem reuse_success_does_not_save :
    (login reuseWorld).success = true ∧ (login reuseWorld).savedCookies = false := by
  decide

/-- C9 amended: `save_cookies` is called exactly on a successful
*interactive* authentication: on the manual path, saving coincides with
success; on the cookie-reuse path (and on setup failure) no save occurs,
even when login succeeds. -/
theorem save_exactly_on_manual_success (w : AuthWorld) :
    ((login w).usedManual = true →
      ((login w).savedCookies = true ↔ (login w).success = true)) ∧
    ((login w).usedManual = false → (login w).savedCookies = false) := by
  by_cases hs : w.setup_ok = true
  · by_cases hc : w.cookies_file_exists = true
    · by_cases hl : strContains (strLower w.target_landing_url) "login" = true
      · simp [login, load_cookies, hs, hc, hl]
      · simp [login, load_cookies, hs, hc, hl]
    · simp [login, load_cookies, hs, hc]
  · simp [login, hs]

/-- Witness for C9 amended at `manualWorld`: the manual path is taken and
saving coincides with success there. -/
theorem save_exactly_on_manual_success_witness :
    (login manualWorld).savedCookies = true ↔ (login manualWorld).success = true :=
  (save_exactly_on_manual_success manualWorld).1 (by decide)

/-- C10: when the cookie file exists, `load_cookies` reports success even
though individual `add_cookie` failures are merely logged and skipped; the
driver ends up with exactly the accepted records applied, and `login` still
probes the target with that partially applied state — the interactive path
is taken only according to the landing URL, never because records were
skipped. -/
theorem partial_cookie_apply_still_loaded (w : AuthWorld) (hs : w.setup_ok = true)
    (hc : w.cookies_file_exists = true) :
    (load_cookies w).1 = true ∧
    (login w).appliedCookies = w.cookies.filter w.add_cookie_ok ∧
    (login w).usedManual = strContains (strLower w.target_landing_url) "login" := by
  by_cases hl : strContains (strLower w.target_landing_url) "login" = true
  · simp [login, load_cookies, hs, hc, hl]
  · simp [login, load_cookies, hs, hc, hl]

/-- Witness for C10 at `reuseWorld`: record 2 is rejected, records 1 and 3
are applied, `load_cookies` still returns `True` and no interactive login
happens. -/
theorem partial_cookie_apply_still_loaded_witness :
    (load_cookies reuseWorld).1 = true ∧
    (login reuseWorld).appliedCookies = [1, 3] ∧
    (login reuseWorld).usedManual = false := by
  have h := partial_cookie_apply_still_loaded reuseWorld rfl rfl
  exact ⟨h.1, by rw [h.2.1]; decide, by rw [h.2.2]; decide⟩
